import Mathlib

/-!
Verification of `ucs_vnic_template_vlan.py`, a single-file Ansible module that
conditionally associates a VLAN with a vNIC template on Cisco UCS Manager.

Shallow embedding: the remote UCS Manager state is a record of existing
managed-object distinguished names and fabric-scope VLAN names; the SDK calls
that the module wraps in try/except (login, add_mo, commit, logout) are made
fallible through an explicit fault record, while the two read queries
(`query_dn`, `query_classid`), which the module does not guard, are modelled
as total reads of the remote state.  `mainRun` replays `main` of the module
deterministically, producing the terminal outcome (`exit_json` or
`fail_json`), the ordered trace of SDK calls, and the final remote state.
-/

namespace UcsVnicTemplateVlan

/-- Parameters of the module, as declared in `argument_spec` of `main`. -/
structure Params where
  vlan_name : String
  vnic_template_name : String
  org : List String
  policy_owner : String
  hostname : String
  username : String
  password : String
  deriving DecidableEq, Repr

/-- Fault injection for the four SDK calls the module wraps in try/except
(`login`, `add_mo`, `commit`, `logout`).  `some m` means the call raises an
exception whose message is `m`; `none` means it succeeds. -/
structure Faults where
  login : Option String
  add_mo : Option String
  commit : Option String
  logout : Option String
  deriving DecidableEq, Repr

/-- Remote UCS Manager state: the distinguished names of existing managed
objects, and the names of fabric-scope VLAN objects (`fabricVlan` class). -/
structure RemoteState where
  objects : List String
  fabricVlans : List String
  deriving DecidableEq, Repr

/-- The module's `results` dictionary: each field is `none` while the key is
absent from the dict and `some b` once the module has assigned it. -/
structure Results where
  logged_in : Option Bool
  logged_out : Option Bool
  changed : Option Bool
  deriving DecidableEq, Repr

/-- The empty `results = {}` dictionary the module starts from. -/
def Results.empty : Results := ⟨none, none, none⟩

/-- Terminal outcome of a run: `module.exit_json(**results)` on success, or
`module.fail_json(msg=...)` on failure.  `fail_json` in the module is always
called with only `msg`, but we keep the `results` dictionary as it stood at
the moment of failure for reasoning about what the module had recorded. -/
inductive Outcome where
  | exitJson (r : Results)
  | failJson (msg : String) (r : Results)
  deriving DecidableEq, Repr

/-- The `changed` value the Ansible framework reports to the caller:
`exit_json` emits the `changed` key of `results` (absent defaults to false);
`fail_json(msg=...)` emits no `changed` key, which the framework treats as
false. -/
def Outcome.changedReported : Outcome → Bool
  | .exitJson r => r.changed.getD false
  | .failJson _ _ => false

/-- True iff the outcome is `exit_json` (process exit signals success). -/
def Outcome.isSuccess : Outcome → Bool
  | .exitJson _ => true
  | .failJson _ _ => false

/-- One SDK call observed on the wire, in program order. -/
inductive Event where
  | login
  | queryDn (dn : String)
  | queryClassId (class_id : String) (filter_str : String)
  | addMo (parent_mo_or_dn : String) (name : String) (default_net : String)
  | commit
  | logout
  deriving DecidableEq, Repr

/-- True iff the event is part of the mutating write (`add_mo` or `commit`). -/
def Event.isWrite : Event → Bool
  | .addMo _ _ _ => true
  | .commit => true
  | _ => false

/-- The `VnicEtherIf` managed object constructed by
`add_vlan_to_vnic_template`. -/
structure VnicEtherIf where
  parent_mo_or_dn : String
  default_net : String
  name : String
  deriving DecidableEq, Repr

/-- Distinguished name of a committed `VnicEtherIf`: relative name `if-<name>`
under its parent. -/
def VnicEtherIf.dn (mo : VnicEtherIf) : String :=
  mo.parent_mo_or_dn ++ "/if-" ++ mo.name

/-- The distinguished-name accumulation loop of `main`:
`vnic_templ_dn = ''`, then `vnic_templ_dn += 'org-' + org_name + '/'` per org
segment, then `vnic_templ_dn += 'lan-conn-templ-' + vnic_template_name`. -/
def vnic_templ_dn (org : List String) (vnic_template_name : String) : String :=
  (org.foldl (fun acc org_name => acc ++ ("org-" ++ org_name ++ "/")) "")
    ++ ("lan-conn-templ-" ++ vnic_template_name)

/-- `handle.query_dn(dn)`: truthy iff a managed object with that
distinguished name exists. -/
def query_dn (st : RemoteState) (dn : String) : Bool :=
  st.objects.contains dn

/-- `check_if_vlan_on_vnic`: builds `proposed_vlan_dn = vnic_templ_dn +
"/if-" + vlan_name` and returns whether `query_dn` finds it. -/
def check_if_vlan_on_vnic (st : RemoteState) (vnic_templ_dn vlan_name : String) : Bool :=
  query_dn st (vnic_templ_dn ++ "/if-" ++ vlan_name)

/-- The filter string `'(name, {0}, type="eq")'.format(vlan_name)` of
`check_vlan_exists_on_fi`. -/
def filter_string (vlan_name : String) : String :=
  "(name, " ++ vlan_name ++ ", type=\x22eq\x22)"

/-- `check_vlan_exists_on_fi`: `query_classid(class_id="fabricVlan",
filter_str=...)` with an exact-match name filter, truthy iff a fabric-scope
VLAN with that exact name exists. -/
def check_vlan_exists_on_fi (st : RemoteState) (vlan_name : String) : Bool :=
  st.fabricVlans.contains vlan_name

/-- Replay of `main`: builds `vnic_templ_dn`, logs in, runs the two checks,
then branches on `vlan_on_fi` / `vlan_on_vnic_template` exactly as the
module does, recording every SDK call in order.  Returns the terminal
outcome, the trace, and the final remote state.  `commit` of a staged
`VnicEtherIf` adds its distinguished name to the remote objects; a rejected
`add_mo` or `commit` leaves the remote state unchanged. -/
def mainRun (p : Params) (f : Faults) (st : RemoteState) :
    Outcome × List Event × RemoteState :=
  let dn := vnic_templ_dn p.org p.vnic_template_name
  match f.login with
  | some m => (.failJson m Results.empty, [.login], st)
  | none =>
    let r1 : Results := { Results.empty with logged_in := some true }
    let vlan_on_vnic_template := check_if_vlan_on_vnic st dn p.vlan_name
    let vlan_on_fi := check_vlan_exists_on_fi st p.vlan_name
    let t0 : List Event :=
      [.login, .queryDn (dn ++ "/if-" ++ p.vlan_name),
       .queryClassId "fabricVlan" (filter_string p.vlan_name)]
    if !vlan_on_fi then
      (.failJson "VLAN does not exist on UCS Fabric Interconnects"
        { r1 with changed := some false }, t0, st)
    else if !vlan_on_vnic_template then
      let mo : VnicEtherIf :=
        { parent_mo_or_dn := dn, default_net := "no", name := p.vlan_name }
      let tAdd := t0 ++ [.addMo mo.parent_mo_or_dn mo.name mo.default_net]
      match f.add_mo with
      | some m => (.failJson m r1, tAdd, st)
      | none =>
        let tCommit := tAdd ++ [.commit]
        match f.commit with
        | some m => (.failJson m r1, tCommit, st)
        | none =>
          let st' : RemoteState := { st with objects := mo.dn :: st.objects }
          let r2 : Results := { r1 with changed := some true }
          let tOut := tCommit ++ [.logout]
          match f.logout with
          | some m => (.failJson m r2, tOut, st')
          | none => (.exitJson { r2 with logged_out := some true }, tOut, st')
    else
      let r2 : Results := { r1 with changed := some false }
      let tOut := t0 ++ [.logout]
      match f.logout with
      | some m => (.failJson m r2, tOut, st)
      | none => (.exitJson { r2 with logged_out := some true }, tOut, st)

/-- Path resolution as the specification words it: concatenate
`org-<segment>/` for each segment in order, followed by
`lan-conn-templ-<templateName>`. -/
def resolveSpec : List String → String → String
  | [], templateName => "lan-conn-templ-" ++ templateName
  | s :: rest, templateName => "org-" ++ s ++ "/" ++ resolveSpec rest templateName

/-- Concrete module parameters used to instantiate the universally
quantified theorems. -/
def pEx : Params :=
  { vlan_name := "v", vnic_template_name := "t", org := ["root"],
    policy_owner := "local", hostname := "h", username := "u", password := "pw" }

/-- All four guarded SDK calls succeed. -/
def fOk : Faults := ⟨none, none, none, none⟩

/-- Remote state where VLAN `v` exists on the fabric and is already
associated with template `t` under `org-root`. -/
def stOn : RemoteState := ⟨["org-root/lan-conn-templ-t/if-v"], ["v"]⟩

/-- Remote state where VLAN `v` exists on the fabric but is not associated
with the template. -/
def stOff : RemoteState := ⟨[], ["v"]⟩

/-- Remote state where VLAN `v` does not exist on the fabric. -/
def stNoFi : RemoteState := ⟨[], []⟩

/-- Accumulator form of the distinguished-name loop: folding from `acc`
prepends `acc` to the fold from the empty string. -/
theorem foldl_org_append (org : List String) (acc : String) :
    org.foldl (fun a s => a ++ ("org-" ++ s ++ "/")) acc =
      acc ++ org.foldl (fun a s => a ++ ("org-" ++ s ++ "/")) "" := by
  induction org generalizing acc with
  | nil => simp
  | cons s rest ih =>
    simp only [List.foldl_cons]
    rw [ih, ih ("" ++ ("org-" ++ s ++ "/"))]
    simp [String.append_assoc]

/-- C7: path resolution is a pure function of the org segment list and the
template name; it equals the specification's concatenation
(`org-<segment>/` per segment in order, then `lan-conn-templ-<name>`), and
on `["root", "ccl"]` and `"data-A"` it yields
`"org-root/org-ccl/lan-conn-templ-data-A"`. -/
theorem vnic_templ_dn_refines_resolveSpec :
    (∀ (org : List String) (templateName : String),
      vnic_templ_dn org templateName = resolveSpec org templateName) ∧
    vnic_templ_dn ["root", "ccl"] "data-A" = "org-root/org-ccl/lan-conn-templ-data-A" := by
  constructor
  · intro org templateName
    induction org with
    | nil => simp [vnic_templ_dn, resolveSpec]
    | cons s rest ih =>
      simp only [vnic_templ_dn, List.foldl_cons, resolveSpec] at ih ⊢
      rw [foldl_org_append rest ("" ++ ("org-" ++ s ++ "/"))]
      simp only [String.append_assoc] at ih ⊢
      simp [ih]
  · rfl

/-- C9: the `policy_owner` parameter is read in `main` but never consulted
afterwards; two runs whose parameters differ only in `policy_owner` have
the same outcome, the same trace of remote calls, and the same final
remote state. -/
theorem policy_owner_inert (p : Params) (po : String) (f : Faults) (st : RemoteState) :
    mainRun { p with policy_owner := po } f st = mainRun p f st := rfl

/-- C10: with an empty org list the distinguished name is
`lan-conn-templ-<name>` with no organizational prefix, and a run whose
guarded calls succeed and whose VLAN exists on the fabric proceeds using
exactly that path and exits successfully. -/
theorem empty_org_run (p : Params) (st : RemoteState)
    (horg : p.org = [])
    (hfi : check_vlan_exists_on_fi st p.vlan_name = true) :
    vnic_templ_dn p.org p.vnic_template_name = "lan-conn-templ-" ++ p.vnic_template_name ∧
    (mainRun p fOk st).1.isSuccess = true ∧
    Event.queryDn ("lan-conn-templ-" ++ p.vnic_template_name ++ "/if-" ++ p.vlan_name)
      ∈ (mainRun p fOk st).2.1 := by
  have hdn : vnic_templ_dn p.org p.vnic_template_name =
      "lan-conn-templ-" ++ p.vnic_template_name := by
    rw [horg]; simp [vnic_templ_dn]
  refine ⟨hdn, ?_⟩
  cases hv : check_if_vlan_on_vnic st (vnic_templ_dn p.org p.vnic_template_name) p.vlan_name with
  | false =>
    rw [hdn] at hv
    simp [mainRun, fOk, hfi, hv, Outcome.isSuccess, hdn]
  | true =>
    rw [hdn] at hv
    simp [mainRun, fOk, hfi, hv, Outcome.isSuccess, hdn]

/-- C10 witness: the empty-org run at concrete inputs. -/
theorem empty_org_run_witness :
    ({ pEx with org := [] } : Params).org = [] ∧
    check_vlan_exists_on_fi stOff ({ pEx with org := [] } : Params).vlan_name = true ∧
    (vnic_templ_dn ({ pEx with org := [] } : Params).org
        ({ pEx with org := [] } : Params).vnic_template_name =
      "lan-conn-templ-" ++ ({ pEx with org := [] } : Params).vnic_template_name ∧
    (mainRun { pEx with org := [] } fOk stOff).1.isSuccess = true ∧
    Event.queryDn ("lan-conn-templ-" ++ ({ pEx with org := [] } : Params).vnic_template_name
        ++ "/if-" ++ ({ pEx with org := [] } : Params).vlan_name)
      ∈ (mainRun { pEx with org := [] } fOk stOff).2.1) :=
  ⟨rfl, by decide, empty_org_run { pEx with org := [] } stOff rfl (by decide)⟩

/-- C2 counterexample: at a concrete input whose fabric-wide existence
check is false, the run fails with message
`"VLAN does not exist on UCS Fabric Interconnects"`, which is not the
message `"VLAN does not exist on Fabric Interconnects"` stated by the
claim. -/
theorem fabric_absent_message_counterexample :
    check_vlan_exists_on_fi stNoFi pEx.vlan_name = false ∧
    (mainRun pEx fOk stNoFi).1 =
      Outcome.failJson "VLAN does not exist on UCS Fabric Interconnects"
        ⟨some true, none, some false⟩ ∧
    "VLAN does not exist on UCS Fabric Interconnects" ≠
      "VLAN does not exist on Fabric Interconnects" := by decide

/-- C2 amended: when login succeeds and the fabric-wide existence query
returns false, the run fails with the fatal message
`"VLAN does not exist on UCS Fabric Interconnects"`, the recorded and
reported `changed` is false, and no write call is issued, regardless of
the target-association state. -/
theorem fabric_absent_fails_unchanged (p : Params) (f : Faults) (st : RemoteState)
    (hl : f.login = none)
    (hfi : check_vlan_exists_on_fi st p.vlan_name = false) :
    (mainRun p f st).1 =
      Outcome.failJson "VLAN does not exist on UCS Fabric Interconnects"
        ⟨some true, none, some false⟩ ∧
    (mainRun p f st).1.changedReported = false ∧
    ∀ e ∈ (mainRun p f st).2.1, e.isWrite = false := by
  obtain ⟨fl, fa, fc, fo⟩ := f
  cases hl
  refine ⟨?_, ?_, ?_⟩ <;>
    simp [mainRun, hfi, Outcome.changedReported, Results.empty, Event.isWrite]

/-- C2 witness: the fabric-absent failure at a concrete input. -/
theorem fabric_absent_fails_unchanged_witness :
    fOk.login = none ∧
    check_vlan_exists_on_fi stNoFi pEx.vlan_name = false ∧
    ((mainRun pEx fOk stNoFi).1 =
      Outcome.failJson "VLAN does not exist on UCS Fabric Interconnects"
        ⟨some true, none, some false⟩ ∧
    (mainRun pEx fOk stNoFi).1.changedReported = false ∧
    ∀ e ∈ (mainRun pEx fOk stNoFi).2.1, e.isWrite = false) :=
  ⟨rfl, by decide, fabric_absent_fails_unchanged pEx fOk stNoFi rfl (by decide)⟩

/-- C3: when every guarded SDK call succeeds, the fabric-wide existence
query returns true and the target-association query returns false, the
trace is exactly login, the two queries, one `add_mo`, one `commit`, then
logout, and the run exits successfully with
`{logged_in := true, logged_out := true, changed := true}`. -/
theorem add_path_one_write (p : Params) (f : Faults) (st : RemoteState)
    (hl : f.login = none) (ha : f.add_mo = none) (hc : f.commit = none)
    (ho : f.logout = none)
    (hfi : check_vlan_exists_on_fi st p.vlan_name = true)
    (hv : check_if_vlan_on_vnic st (vnic_templ_dn p.org p.vnic_template_name)
      p.vlan_name = false) :
    (mainRun p f st).2.1 =
      [Event.login,
       Event.queryDn (vnic_templ_dn p.org p.vnic_template_name ++ "/if-" ++ p.vlan_name),
       Event.queryClassId "fabricVlan" (filter_string p.vlan_name),
       Event.addMo (vnic_templ_dn p.org p.vnic_template_name) p.vlan_name "no",
       Event.commit, Event.logout] ∧
    (mainRun p f st).1 = Outcome.exitJson ⟨some true, some true, some true⟩ := by
  obtain ⟨fl, fa, fc, fo⟩ := f
  cases hl; cases ha; cases hc; cases ho
  constructor <;> simp [mainRun, hfi, hv, Results.empty]

/-- C3 witness: the write path at a concrete input. -/
theorem add_path_one_write_witness :
    fOk.login = none ∧ fOk.add_mo = none ∧ fOk.commit = none ∧ fOk.logout = none ∧
    check_vlan_exists_on_fi stOff pEx.vlan_name = true ∧
    check_if_vlan_on_vnic stOff (vnic_templ_dn pEx.org pEx.vnic_template_name)
      pEx.vlan_name = false ∧
    ((mainRun pEx fOk stOff).2.1 =
      [Event.login,
       Event.queryDn (vnic_templ_dn pEx.org pEx.vnic_template_name ++ "/if-" ++ pEx.vlan_name),
       Event.queryClassId "fabricVlan" (filter_string pEx.vlan_name),
       Event.addMo (vnic_templ_dn pEx.org pEx.vnic_template_name) pEx.vlan_name "no",
       Event.commit, Event.logout] ∧
    (mainRun pEx fOk stOff).1 = Outcome.exitJson ⟨some true, some true, some true⟩) :=
  ⟨rfl, rfl, rfl, rfl, by decide, by decide,
    add_path_one_write pEx fOk stOff rfl rfl rfl rfl (by decide) (by decide)⟩

/-- C4: when login and logout succeed, the fabric-wide existence query
returns true and the target-association query also returns true, no write
call is issued and the run exits successfully with `changed := false`. -/
theorem already_associated_noop (p : Params) (f : Faults) (st : RemoteState)
    (hl : f.login = none) (ho : f.logout = none)
    (hfi : check_vlan_exists_on_fi st p.vlan_name = true)
    (hv : check_if_vlan_on_vnic st (vnic_templ_dn p.org p.vnic_template_name)
      p.vlan_name = true) :
    (∀ e ∈ (mainRun p f st).2.1, e.isWrite = false) ∧
    (mainRun p f st).1 = Outcome.exitJson ⟨some true, some true, some false⟩ := by
  obtain ⟨fl, fa, fc, fo⟩ := f
  cases hl; cases ho
  constructor
  · simp [mainRun, hfi, hv, Results.empty, Event.isWrite]
  · simp [mainRun, hfi, hv, Results.empty]

/-- C4 witness: the no-op path at a concrete input. -/
theorem already_associated_noop_witness :
    fOk.login = none ∧ fOk.logout = none ∧
    check_vlan_exists_on_fi stOn pEx.vlan_name = true ∧
    check_if_vlan_on_vnic stOn (vnic_templ_dn pEx.org pEx.vnic_template_name)
      pEx.vlan_name = true ∧
    ((∀ e ∈ (mainRun pEx fOk stOn).2.1, e.isWrite = false) ∧
    (mainRun pEx fOk stOn).1 = Outcome.exitJson ⟨some true, some true, some false⟩) :=
  ⟨rfl, rfl, by decide, by decide,
    already_associated_noop pEx fOk stOn rfl rfl (by decide) (by decide)⟩

/-- C1: a mutating write event (`add_mo` or `commit`) appears in the trace
only if the fabric-wide existence check evaluated to true in that
invocation, and only strictly after the `query_classid` call that performed
the check; no execution writes after the fabric-wide check returned
false. -/
theorem write_only_after_fabric_check (p : Params) (f : Faults) (st : RemoteState)
    (e : Event) (he : e ∈ (mainRun p f st).2.1) (hw : e.isWrite = true) :
    check_vlan_exists_on_fi st p.vlan_name = true ∧
    ∃ t1 t2, (mainRun p f st).2.1 =
      t1 ++ Event.queryClassId "fabricVlan" (filter_string p.vlan_name) :: t2 ∧
      e ∈ t2 := by
  obtain ⟨fl, fa, fc, fo⟩ := f
  cases fl with
  | some m =>
    simp [mainRun] at he
    subst he; simp [Event.isWrite] at hw
  | none =>
    cases hfi : check_vlan_exists_on_fi st p.vlan_name with
    | false =>
      simp [mainRun, hfi] at he
      rcases he with rfl | rfl | rfl <;> simp [Event.isWrite] at hw
    | true =>
      cases hv : check_if_vlan_on_vnic st (vnic_templ_dn p.org p.vnic_template_name)
          p.vlan_name with
      | true =>
        cases fo <;> simp [mainRun, hfi, hv] at he <;>
          rcases he with rfl | rfl | rfl | rfl <;> simp [Event.isWrite] at hw
      | false =>
        refine ⟨rfl, [Event.login,
          Event.queryDn (vnic_templ_dn p.org p.vnic_template_name ++ "/if-" ++ p.vlan_name)],
          ?_⟩
        cases fa with
        | some m =>
          refine ⟨[Event.addMo (vnic_templ_dn p.org p.vnic_template_name) p.vlan_name "no"],
            by simp [mainRun, hfi, hv], ?_⟩
          simp [mainRun, hfi, hv] at he
          rcases he with rfl | rfl | rfl | rfl
          · simp [Event.isWrite] at hw
          · simp [Event.isWrite] at hw
          · simp [Event.isWrite] at hw
          · simp
        | none =>
          cases fc with
          | some m =>
            refine ⟨[Event.addMo (vnic_templ_dn p.org p.vnic_template_name) p.vlan_name "no",
              Event.commit], by simp [mainRun, hfi, hv], ?_⟩
            simp [mainRun, hfi, hv] at he
            rcases he with rfl | rfl | rfl | rfl | rfl
            · simp [Event.isWrite] at hw
            · simp [Event.isWrite] at hw
            · simp [Event.isWrite] at hw
            · simp
            · simp
          | none =>
            refine ⟨[Event.addMo (vnic_templ_dn p.org p.vnic_template_name) p.vlan_name "no",
              Event.commit, Event.logout], ?_, ?_⟩
            · cases fo <;> simp [mainRun, hfi, hv]
            · cases fo with
              | some m =>
                simp [mainRun, hfi, hv] at he
                rcases he with rfl | rfl | rfl | rfl | rfl | rfl
                · simp [Event.isWrite] at hw
                · simp [Event.isWrite] at hw
                · simp [Event.isWrite] at hw
                · simp
                · simp
                · simp
              | none =>
                simp [mainRun, hfi, hv] at he
                rcases he with rfl | rfl | rfl | rfl | rfl | rfl
                · simp [Event.isWrite] at hw
                · simp [Event.isWrite] at hw
                · simp [Event.isWrite] at hw
                · simp
                · simp
                · simp

/-- C1 witness: the `add_mo` event of the concrete write path is in the
trace, is a write, and the guarantee holds for it. -/
theorem write_only_after_fabric_check_witness :
    Event.addMo (vnic_templ_dn pEx.org pEx.vnic_template_name) pEx.vlan_name "no"
      ∈ (mainRun pEx fOk stOff).2.1 ∧
    (Event.addMo (vnic_templ_dn pEx.org pEx.vnic_template_name) pEx.vlan_name "no").isWrite
      = true ∧
    (check_vlan_exists_on_fi stOff pEx.vlan_name = true ∧
    ∃ t1 t2, (mainRun pEx fOk stOff).2.1 =
      t1 ++ Event.queryClassId "fabricVlan" (filter_string pEx.vlan_name) :: t2 ∧
      Event.addMo (vnic_templ_dn pEx.org pEx.vnic_template_name) pEx.vlan_name "no" ∈ t2) :=
  ⟨by decide, rfl,
    write_only_after_fabric_check pEx fOk stOff
      (Event.addMo (vnic_templ_dn pEx.org pEx.vnic_template_name) pEx.vlan_name "no")
      (by decide) rfl⟩

/-- C5 counterexample: at a concrete input the session is opened
successfully (login succeeds and appears in the trace), the run exits via
the fatal fabric-absent path, and no logout is ever invoked — the claim
that every exit path of a session-opening invocation closes the session is
false. -/
theorem logout_every_path_counterexample :
    fOk.login = none ∧
    Event.login ∈ (mainRun pEx fOk stNoFi).2.1 ∧
    (mainRun pEx fOk stNoFi).1.isSuccess = false ∧
    Event.logout ∉ (mainRun pEx fOk stNoFi).2.1 := by decide

/-- C5 amended: every run that exits successfully (`exit_json`) invokes
logout before exiting, but on the fatal fabric-absent path the program
exits without invoking logout. -/
theorem logout_on_success_paths (p : Params) (f : Faults) (st : RemoteState) :
    ((mainRun p f st).1.isSuccess = true → Event.logout ∈ (mainRun p f st).2.1) ∧
    (f.login = none → check_vlan_exists_on_fi st p.vlan_name = false →
      Event.logout ∉ (mainRun p f st).2.1) := by
  obtain ⟨fl, fa, fc, fo⟩ := f
  constructor
  · intro hs
    cases fl with
    | some m => simp [mainRun, Outcome.isSuccess] at hs
    | none =>
      cases hfi : check_vlan_exists_on_fi st p.vlan_name with
      | false => simp [mainRun, hfi, Outcome.isSuccess] at hs
      | true =>
        cases hv : check_if_vlan_on_vnic st (vnic_templ_dn p.org p.vnic_template_name)
            p.vlan_name with
        | true => cases fo <;> simp [mainRun, hfi, hv, Outcome.isSuccess] at hs ⊢
        | false =>
          cases fa with
          | some m => simp [mainRun, hfi, hv, Outcome.isSuccess] at hs
          | none =>
            cases fc with
            | some m => simp [mainRun, hfi, hv, Outcome.isSuccess] at hs
            | none => cases fo <;> simp [mainRun, hfi, hv, Outcome.isSuccess] at hs ⊢
  · intro hl hfi
    cases hl
    simp [mainRun, hfi]

/-- C5 witness: the amended statement at concrete inputs — logout is in the
trace of a successful run, and absent from the trace of a fabric-absent
run. -/
theorem logout_on_success_paths_witness :
    ((mainRun pEx fOk stOn).1.isSuccess = true ∧
      Event.logout ∈ (mainRun pEx fOk stOn).2.1) ∧
    (fOk.login = none ∧ check_vlan_exists_on_fi stNoFi pEx.vlan_name = false ∧
      Event.logout ∉ (mainRun pEx fOk stNoFi).2.1) :=
  ⟨⟨by decide, (logout_on_success_paths pEx fOk stOn).1 (by decide)⟩,
   ⟨rfl, by decide, (logout_on_success_paths pEx fOk stNoFi).2 rfl (by decide)⟩⟩

/-- C6: on the write path, if `add_mo` raises, or `add_mo` succeeds and
`commit` raises, the run fails with that error's message as the failure
message, the `changed` key was never set (in particular never to true), the
framework-reported `changed` is false, and the remote state is unchanged. -/
theorem write_failure_unchanged (p : Params) (f : Faults) (st : RemoteState) (m : String)
    (hl : f.login = none)
    (hfi : check_vlan_exists_on_fi st p.vlan_name = true)
    (hv : check_if_vlan_on_vnic st (vnic_templ_dn p.org p.vnic_template_name)
      p.vlan_name = false)
    (hwf : f.add_mo = some m ∨ (f.add_mo = none ∧ f.commit = some m)) :
    (mainRun p f st).1 = Outcome.failJson m ⟨some true, none, none⟩ ∧
    (mainRun p f st).1.changedReported = false ∧
    (mainRun p f st).2.2 = st := by
  obtain ⟨fl, fa, fc, fo⟩ := f
  cases hl
  rcases hwf with ha | ⟨ha, hc⟩
  · cases ha
    refine ⟨?_, ?_, ?_⟩ <;>
      simp [mainRun, hfi, hv, Results.empty, Outcome.changedReported]
  · cases ha; cases hc
    refine ⟨?_, ?_, ?_⟩ <;>
      simp [mainRun, hfi, hv, Results.empty, Outcome.changedReported]

/-- C6 witness: a rejected `add_mo` with message `"boom"` at concrete
inputs fails with that message, reports unchanged, and leaves the remote
state intact. -/
theorem write_failure_unchanged_witness :
    (⟨none, some "boom", none, none⟩ : Faults).login = none ∧
    check_vlan_exists_on_fi stOff pEx.vlan_name = true ∧
    check_if_vlan_on_vnic stOff (vnic_templ_dn pEx.org pEx.vnic_template_name)
      pEx.vlan_name = false ∧
    ((mainRun pEx ⟨none, some "boom", none, none⟩ stOff).1 =
      Outcome.failJson "boom" ⟨some true, none, none⟩ ∧
    (mainRun pEx ⟨none, some "boom", none, none⟩ stOff).1.changedReported = false ∧
    (mainRun pEx ⟨none, some "boom", none, none⟩ stOff).2.2 = stOff) :=
  ⟨rfl, by decide, by decide,
    write_failure_unchanged pEx ⟨none, some "boom", none, none⟩ stOff "boom"
      rfl (by decide) (by decide) (Or.inl rfl)⟩

/-- C8: with all guarded calls succeeding, fabric-wide existence true and
the VLAN not yet on the template, a first run exits with `changed := true`,
and a second run started from the first run's final remote state exits with
`changed := false` and issues no write. -/
theorem second_run_unchanged (p : Params) (st : RemoteState)
    (hfi : check_vlan_exists_on_fi st p.vlan_name = true)
    (hv : check_if_vlan_on_vnic st (vnic_templ_dn p.org p.vnic_template_name)
      p.vlan_name = false) :
    (mainRun p fOk st).1 = Outcome.exitJson ⟨some true, some true, some true⟩ ∧
    (mainRun p fOk ((mainRun p fOk st).2.2)).1 =
      Outcome.exitJson ⟨some true, some true, some false⟩ ∧
    ∀ e ∈ (mainRun p fOk ((mainRun p fOk st).2.2)).2.1, e.isWrite = false := by
  have hst : (mainRun p fOk st).2.2 =
      ⟨(vnic_templ_dn p.org p.vnic_template_name ++ "/if-" ++ p.vlan_name) :: st.objects,
        st.fabricVlans⟩ := by
    simp [mainRun, fOk, hfi, hv, VnicEtherIf.dn]
  have hfi2 : check_vlan_exists_on_fi
      ⟨(vnic_templ_dn p.org p.vnic_template_name ++ "/if-" ++ p.vlan_name) :: st.objects,
        st.fabricVlans⟩ p.vlan_name = true := by
    simpa [check_vlan_exists_on_fi] using hfi
  have hv2 : check_if_vlan_on_vnic
      ⟨(vnic_templ_dn p.org p.vnic_template_name ++ "/if-" ++ p.vlan_name) :: st.objects,
        st.fabricVlans⟩ (vnic_templ_dn p.org p.vnic_template_name) p.vlan_name = true := by
    simp [check_if_vlan_on_vnic, query_dn, List.contains_cons]
  refine ⟨by simp [mainRun, fOk, hfi, hv], ?_, ?_⟩
  · rw [hst]
    simp [mainRun, fOk, hfi2, hv2]
  · rw [hst]
    simp [mainRun, fOk, hfi2, hv2, Event.isWrite]

/-- C8 witness: the two sequential runs at concrete inputs. -/
theorem second_run_unchanged_witness :
    check_vlan_exists_on_fi stOff pEx.vlan_name = true ∧
    check_if_vlan_on_vnic stOff (vnic_templ_dn pEx.org pEx.vnic_template_name)
      pEx.vlan_name = false ∧
    ((mainRun pEx fOk stOff).1 = Outcome.exitJson ⟨some true, some true, some true⟩ ∧
    (mainRun pEx fOk ((mainRun pEx fOk stOff).2.2)).1 =
      Outcome.exitJson ⟨some true, some true, some false⟩ ∧
    ∀ e ∈ (mainRun pEx fOk ((mainRun pEx fOk stOff).2.2)).2.1, e.isWrite = false) :=
  ⟨by decide, by decide,
    second_run_unchanged pEx stOff (by decide) (by decide)⟩

end UcsVnicTemplateVlan
